import Mathlib

/-!
Shallow embedding of the Fireverse World Engine auto-arc evolution system
(`fireverse_engine/episode_engine.py`) together with the creature rotation
tracker described in the design document (section 4.2).

Modelling conventions:
* Python floats are modelled as exact rationals (`ℚ`); the arithmetic in
  the source is a fixed set of additions, multiplications and divisions on
  small decimal constants, which the rational semantics captures exactly.
* Python code that can raise (`float(...)` applied to a non-numeric string)
  is modelled with `Option`: `none` is a raised `ValueError`.
* Python dicts that the code iterates in insertion order are modelled as
  association lists with Python's update-in-place/append-new semantics.
-/

set_option maxRecDepth 100000

namespace Fireverse

/-- A Python value that can appear in a director-settings mapping: either a
number or a string (for example a named level such as "high"). -/
inductive PyValue where
  | num (q : ℚ)
  | str (s : String)
  deriving DecidableEq

/-- True when the value is numeric. -/
def PyValue.isNum : PyValue → Bool
  | .num _ => true
  | .str _ => false

/-- Decimal digits to a natural number. -/
def digitsToNat (l : List Char) : Nat :=
  l.foldl (fun acc c => acc * 10 + (c.toNat - 48)) 0

/-- Model of CPython float-of-string on plain decimal literals: digits with an
optional fractional part after a dot. Any other shape (for example a named
level such as "high") makes the conversion raise ValueError, modelled as
`none`. -/
def parseDecimal (chars : List Char) : Option ℚ :=
  let intPart := chars.takeWhile Char.isDigit
  let rest := chars.dropWhile Char.isDigit
  match rest with
  | [] => if intPart.isEmpty then none else some (digitsToNat intPart : ℚ)
  | '.' :: frac =>
      if frac.all Char.isDigit && !(intPart.isEmpty && frac.isEmpty) then
        some ((digitsToNat intPart : ℚ) + (digitsToNat frac : ℚ) / (10 : ℚ) ^ frac.length)
      else none
  | _ => none

/-- Model of Python `float(value)`: numbers convert to themselves, strings are
parsed as decimal literals (optionally signed) and raise otherwise. -/
def pyFloat : PyValue → Option ℚ
  | .num q => some q
  | .str s =>
      match s.toList with
      | '-' :: rest => (parseDecimal rest).map (fun q => -q)
      | '+' :: rest => parseDecimal rest
      | rest => parseDecimal rest

/-- Model of `settings.get(key, default)` on an association list. -/
def lookupSetting (settings : List (String × PyValue)) (key : String)
    (dflt : PyValue) : PyValue :=
  match settings.find? (fun kv => kv.1 == key) with
  | some kv => kv.2
  | none => dflt

/-- The fixed stage order `STAGE_ORDER` of `episode_engine.py`. -/
def STAGE_ORDER : List String :=
  ["intro", "buildup", "escalation", "instability", "finale"]

/-- Persisted memory for a story arc (`ArcMemory` of `episode_engine.py`). -/
structure ArcMemory where
  arc_id : String
  total_episodes : Int
  completed_episodes : Int := 0
  current_progress_stage : String := "intro"
  escalation_level : ℚ := 0
  deriving DecidableEq

/-- Computed progression values (`ArcProgression` of `episode_engine.py`). -/
structure ArcProgression where
  stage : String
  position_ratio : ℚ
  scene_intensity : ℚ
  narration_tension : ℚ
  disturbance_frequency : ℚ
  cliffhanger_strength : ℚ
  silhouette_presence : ℚ
  escalation_level : ℚ
  deriving DecidableEq

/-- Saturating clamp (`_clamp` of `episode_engine.py`, used at its default
bounds `low = 0`, `high = 1` throughout the source). -/
def _clamp (value : ℚ) : ℚ :=
  max 0 (min 1 value)

/-- Stage detection from episode position (`_detect_progress_stage`). -/
def _detect_progress_stage (episode_number total_episodes : Int) : String × ℚ :=
  let safe_total := max total_episodes 1
  let clamped_episode := max 1 (min episode_number safe_total)
  let position_ratio : ℚ :=
    if safe_total > 1 then ((clamped_episode - 1 : Int) : ℚ) / ((safe_total - 1 : Int) : ℚ)
    else 1
  if position_ratio < 0.20 then ("intro", position_ratio)
  else if position_ratio < 0.40 then ("buildup", position_ratio)
  else if position_ratio < 0.65 then ("escalation", position_ratio)
  else if position_ratio < 0.90 then ("instability", position_ratio)
  else ("finale", position_ratio)

/-- Monotonic stage intensity modifier (`_stage_modifier`). -/
def _stage_modifier (stage : String) : ℚ :=
  if stage = "intro" then 0.10
  else if stage = "buildup" then 0.30
  else if stage = "escalation" then 0.55
  else if stage = "instability" then 0.75
  else if stage = "finale" then 0.95
  else 0.10

/-- Progression computation (`compute_arc_progression`). The Python function
raises `ValueError` when the silhouette-visibility setting is a non-numeric
string; that outcome is `none`. -/
def compute_arc_progression (episode_number total_episodes : Int)
    (director_settings : Option (List (String × PyValue))) (prior_escalation : ℚ) :
    Option ArcProgression :=
  let settings := director_settings.getD []
  let sr := _detect_progress_stage episode_number total_episodes
  let stage := sr.1
  let ratio := sr.2
  let stage_mod := _stage_modifier stage
  let escalation_level := _clamp ((prior_escalation * 0.4) + (ratio * 0.35) + (stage_mod * 0.25))
  let scene_intensity := _clamp (0.25 + (stage_mod * 0.45) + (ratio * 0.30))
  let narration_tension := _clamp (0.20 + (stage_mod * 0.40) + (escalation_level * 0.25))
  let disturbance_frequency := _clamp (0.15 + (ratio * 0.35) + (stage_mod * 0.30))
  let cliffhanger_strength := _clamp (0.10 + (ratio * 0.45) + (stage_mod * 0.35))
  match pyFloat (lookupSetting settings "silhouette_visibility" (PyValue.num 0.2)) with
  | none => none
  | some base_silhouette =>
      some
        { stage := stage
          position_ratio := ratio
          scene_intensity := scene_intensity
          narration_tension := narration_tension
          disturbance_frequency := disturbance_frequency
          cliffhanger_strength := cliffhanger_strength
          silhouette_presence := _clamp (base_silhouette + (ratio * 0.40) + (stage_mod * 0.30))
          escalation_level := escalation_level }

/-- Scene block of the episode blueprint returned by `generate_episode`. -/
structure SceneBlock where
  intensity : ℚ
  disturbance_frequency : ℚ
  enemy_silhouette_presence : ℚ
  deriving DecidableEq

/-- Narration block of the episode blueprint. -/
structure NarrationBlock where
  tension : ℚ
  deriving DecidableEq

/-- Ending block of the episode blueprint. -/
structure EndingBlock where
  cliffhanger_strength : ℚ
  deriving DecidableEq

/-- The dictionary returned by `generate_episode` in `episode_engine.py`. -/
structure EpisodeOutput where
  arc_id : String
  episode_number : Int
  progression_stage : String
  scene : SceneBlock
  narration : NarrationBlock
  ending : EndingBlock
  deriving DecidableEq

/-- Episode generation (`generate_episode` of `episode_engine.py`). The Python
function mutates `arc` in place; the embedding returns the updated arc next to
the produced blueprint. `none` is a raised `ValueError` bubbled up from
`compute_arc_progression`. -/
def generate_episode (arc : ArcMemory)
    (director_settings : Option (List (String × PyValue))) :
    Option (ArcMemory × EpisodeOutput) :=
  let next_episode := arc.completed_episodes + 1
  match compute_arc_progression next_episode arc.total_episodes director_settings
      arc.escalation_level with
  | none => none
  | some progression =>
      let arc2 : ArcMemory :=
        { arc with
          completed_episodes := min next_episode arc.total_episodes
          current_progress_stage := progression.stage
          escalation_level := progression.escalation_level }
      some (arc2,
        { arc_id := arc.arc_id
          episode_number := next_episode
          progression_stage := progression.stage
          scene :=
            { intensity := progression.scene_intensity
              disturbance_frequency := progression.disturbance_frequency
              enemy_silhouette_presence := progression.silhouette_presence }
          narration := { tension := progression.narration_tension }
          ending := { cliffhanger_strength := progression.cliffhanger_strength } })

/-- Rounding half to even of a rational, the semantics of Python `round`. -/
def roundHalfEven (q : ℚ) : Int :=
  let f := ⌊q⌋
  let r := q - f
  if r < 1 / 2 then f
  else if 1 / 2 < r then f + 1
  else if f % 2 = 0 then f else f + 1

/-- Model of Python `round(x, 4)`. -/
def round4 (q : ℚ) : ℚ :=
  (roundHalfEven (q * 10000) : ℚ) / 10000

/-- One record of the JSON payload written by `save_arcs`. The JSON text layer
itself (`json.dumps` / `json.loads`, inverse of each other) is abstracted: the
embedding works on the payload's list of records. -/
structure SavedArc where
  arc_id : String
  total_episodes : Int
  completed_episodes : Int
  current_progress_stage : String
  escalation_level : ℚ
  deriving DecidableEq

/-- Python dict assignment `d[k] = v` on an association list: an existing key
keeps its position and gets the new value, a new key is appended. -/
def dictInsert {α : Type} (d : List (String × α)) (k : String) (v : α) :
    List (String × α) :=
  if d.any (fun kv => kv.1 == k) then
    d.map (fun kv => if kv.1 == k then (k, v) else kv)
  else d ++ [(k, v)]

/-- Persisting arc records (`save_arcs` of `episode_engine.py`): the payload
lists the dict's values in order, with `escalation_level` rounded to four
decimal places. -/
def save_arcs (arcs : List ArcMemory) : List SavedArc :=
  arcs.map (fun arc =>
    { arc_id := arc.arc_id
      total_episodes := arc.total_episodes
      completed_episodes := arc.completed_episodes
      current_progress_stage := arc.current_progress_stage
      escalation_level := round4 arc.escalation_level })

/-- Loading arc records (`load_arcs` of `episode_engine.py`): rebuilds the
dict keyed by each record's `arc_id`. -/
def load_arcs (payload : List SavedArc) : List (String × ArcMemory) :=
  payload.foldl
    (fun arcs item =>
      dictInsert arcs item.arc_id
        { arc_id := item.arc_id
          total_episodes := item.total_episodes
          completed_episodes := item.completed_episodes
          current_progress_stage := item.current_progress_stage
          escalation_level := item.escalation_level })
    []

/-- Modelled from the spec: the creature rotation tracker state (design
document section 3, `CreatureTracker`). The tracker implementation is part of
the repository that is not included under `src/`; the record follows the
spec's field list. -/
structure CreatureTracker where
  creatures_used : List (String × Nat)
  main_episode_assignments : List (String × List Int)
  background_appearances : List (String × List Int)
  deriving DecidableEq

/-- History lookup with empty default (spec: missing tracker entries are
treated as fresh, empty histories). -/
def getHistory (m : List (String × List Int)) (c : String) : List Int :=
  match m.find? (fun kv => kv.1 == c) with
  | some kv => kv.2
  | none => []

/-- Usage-count lookup with zero default. -/
def getCount (m : List (String × Nat)) (c : String) : Nat :=
  match m.find? (fun kv => kv.1 == c) with
  | some kv => kv.2
  | none => 0

/-- Set one entry of an association list, Python-dict style. -/
def setEntry {α : Type} (m : List (String × α)) (c : String) (v : α) :
    List (String × α) :=
  dictInsert m c v

/-- Append one episode number to a creature's recorded history. -/
def appendHistory (m : List (String × List Int)) (c : String) (e : Int) :
    List (String × List Int) :=
  setEntry m c (getHistory m c ++ [e])

/-- Increment a creature's cumulative usage counter. -/
def bumpCount (m : List (String × Nat)) (c : String) : List (String × Nat) :=
  setEntry m c (getCount m c + 1)

/-- Modelled from the spec: `recent_threshold = max(1, episode_number -
recent_window + 1)` (design document section 4.2, step 1). -/
def recentThreshold (episode_number recent_window : Int) : Int :=
  max 1 (episode_number - recent_window + 1)

/-- Modelled from the spec: a creature is eligible for main selection unless
it was assigned main in any episode number at least `recent_threshold`
(design document section 4.2, step 2). -/
def isEligible (t : CreatureTracker) (c : String)
    (episode_number recent_window : Int) : Bool :=
  (getHistory t.main_episode_assignments c).all
    (fun e => decide (e < recentThreshold episode_number recent_window))

/-- Modelled from the spec: the eligibility filter over the candidate pool,
preserving input order. -/
def eligibleCreatures (pool : List String) (episode_number recent_window : Int)
    (t : CreatureTracker) : List String :=
  pool.filter (fun c => isEligible t c episode_number recent_window)

/-- Modelled from the spec: least-used selection with ties broken by input
order (design document section 4.2, step 4). -/
def leastUsed (cands : List String) (counts : String → Nat) : Option String :=
  match cands with
  | [] => none
  | x :: xs => some (xs.foldl (fun best c => if counts c < counts best then c else best) x)

/-- Modelled from the spec: `select_episode_creatures` (design document
section 4.2). The tracker implementation is part of the repository that is
not included under `src/`; the definition follows the spec's six algorithm
steps and its empty-pool edge case. -/
def select_episode_creatures (available_creatures : List String)
    (episode_number recent_window : Int) (tracker : CreatureTracker) :
    Option String × List String × CreatureTracker :=
  match available_creatures with
  | [] => (none, [], tracker)
  | _ :: _ =>
      let elig := eligibleCreatures available_creatures episode_number recent_window tracker
      let cands := if elig.isEmpty then available_creatures else elig
      match leastUsed cands
          (fun c => (getHistory tracker.main_episode_assignments c).length) with
      | none => (none, [], tracker)
      | some mc =>
          let background := available_creatures.erase mc
          let t1 := { tracker with
            main_episode_assignments :=
              appendHistory tracker.main_episode_assignments mc episode_number }
          let t2 := background.foldl
            (fun t c =>
              { t with background_appearances :=
                  appendHistory t.background_appearances c episode_number })
            t1
          let t3 := available_creatures.foldl
            (fun t c => { t with creatures_used := bumpCount t.creatures_used c })
            t2
          (some mc, background, t3)

/-- Stage names mapped to their rank in the fixed total order
`intro < buildup < escalation < instability < finale`. -/
def stageIndex (stage : String) : Nat :=
  if stage = "intro" then 0
  else if stage = "buildup" then 1
  else if stage = "escalation" then 2
  else if stage = "instability" then 3
  else if stage = "finale" then 4
  else 5

/-- The position ratio computed inside `_detect_progress_stage`, factored out
for the proofs below. -/
def ratioAt (episode_number total_episodes : Int) : ℚ :=
  let safe_total := max total_episodes 1
  let clamped_episode := max 1 (min episode_number safe_total)
  if safe_total > 1 then ((clamped_episode - 1 : Int) : ℚ) / ((safe_total - 1 : Int) : ℚ)
  else 1

/-- The stage classification of a position ratio, factored out for the proofs
below. -/
def stageAt (r : ℚ) : String :=
  if r < 0.20 then "intro"
  else if r < 0.40 then "buildup"
  else if r < 0.65 then "escalation"
  else if r < 0.90 then "instability"
  else "finale"

/-! Helper lemmas about the embedded definitions. -/

theorem _clamp_nonneg (x : ℚ) : 0 ≤ _clamp x := le_max_left 0 _

theorem _clamp_le_one (x : ℚ) : _clamp x ≤ 1 := max_le (by norm_num) (min_le_left 1 x)

theorem detect_eq (e N : Int) :
    _detect_progress_stage e N = (stageAt (ratioAt e N), ratioAt e N) := by
  unfold _detect_progress_stage stageAt ratioAt
  dsimp only
  split_ifs <;> rfl

theorem ratioAt_nonneg (e N : Int) : 0 ≤ ratioAt e N := by
  unfold ratioAt
  dsimp only
  split_ifs with h
  · apply div_nonneg
    · have h1 : (1 : Int) ≤ max 1 (min e (max N 1)) := le_max_left 1 _
      have : (0 : Int) ≤ max 1 (min e (max N 1)) - 1 := by omega
      exact_mod_cast this
    · have : (0 : Int) ≤ max N 1 - 1 := by omega
      exact_mod_cast this
  · norm_num

theorem ratioAt_le_one (e N : Int) : ratioAt e N ≤ 1 := by
  unfold ratioAt
  dsimp only
  split_ifs with h
  · rw [div_le_one]
    · have h1 : max 1 (min e (max N 1)) ≤ max N 1 :=
        max_le (le_of_lt h) (min_le_right e (max N 1))
      have : (max 1 (min e (max N 1)) - 1 : Int) ≤ (max N 1 - 1 : Int) := by omega
      exact_mod_cast this
    · have : (0 : Int) < max N 1 - 1 := by omega
      exact_mod_cast this
  · norm_num

theorem ratioAt_mono (N e e' : Int) (h : e ≤ e') : ratioAt e N ≤ ratioAt e' N := by
  unfold ratioAt
  dsimp only
  split_ifs with hs
  · have hc : max 1 (min e (max N 1)) ≤ max 1 (min e' (max N 1)) :=
      max_le_max le_rfl (min_le_min h le_rfl)
    have hnum : ((max 1 (min e (max N 1)) - 1 : Int) : ℚ) ≤
        ((max 1 (min e' (max N 1)) - 1 : Int) : ℚ) := by
      exact_mod_cast sub_le_sub_right hc 1
    have hden : (0 : ℚ) ≤ ((max N 1 - 1 : Int) : ℚ) := by
      have : (0 : Int) ≤ max N 1 - 1 := by omega
      exact_mod_cast this
    exact div_le_div_of_nonneg_right hnum hden
  · exact le_refl 1

theorem stageAt_mono (r r' : ℚ) (h : r ≤ r') :
    stageIndex (stageAt r) ≤ stageIndex (stageAt r') := by
  unfold stageAt
  split_ifs <;> first | decide | linarith

theorem ratioAt_at_end (e N : Int) (h1 : 1 ≤ N) (h2 : N ≤ e) : ratioAt e N = 1 := by
  unfold ratioAt
  dsimp only
  rw [max_eq_left h1, min_eq_right h2, max_eq_right h1]
  split_ifs with h
  · apply div_self
    have : (N - 1 : Int) ≠ 0 := by omega
    exact_mod_cast this
  · rfl

theorem ratioAt_at_start (N : Int) (hN : 2 ≤ N) : ratioAt 1 N = 0 := by
  unfold ratioAt
  dsimp only
  rw [max_eq_left (by omega : (1 : Int) ≤ N), min_eq_left (by omega : (1 : Int) ≤ N),
    max_self]
  rw [if_pos (by omega : (1 : Int) < N)]
  norm_num

theorem stageAt_one : stageAt 1 = "finale" := by
  unfold stageAt
  norm_num

theorem _stage_modifier_intro : _stage_modifier "intro" = 0.10 := by
  with_unfolding_all rfl

theorem _stage_modifier_finale : _stage_modifier "finale" = 0.95 := by
  with_unfolding_all rfl

theorem stageAt_zero : stageAt 0 = "intro" := by
  unfold stageAt
  norm_num

theorem pyFloat_lookup_of_convertible (l : List (String × PyValue))
    (hconv : l.all
      (fun kv => (kv.1 != "silhouette_visibility") || (pyFloat kv.2).isSome) = true) :
    ∃ b, pyFloat (lookupSetting l "silhouette_visibility" (PyValue.num 0.2)) = some b := by
  unfold lookupSetting
  cases hfind : l.find? (fun kv => kv.1 == "silhouette_visibility") with
  | none => exact ⟨0.2, rfl⟩
  | some kv =>
      have hmem : kv ∈ l := List.mem_of_find?_eq_some hfind
      have hp := List.find?_some hfind
      have hall := List.all_eq_true.mp hconv kv hmem
      simp only [bne, hp, Bool.not_true, Bool.false_or] at hall
      obtain ⟨b, hb⟩ := Option.isSome_iff_exists.mp hall
      refine ⟨b, ?_⟩
      show pyFloat kv.2 = some b
      exact hb

theorem dictInsert_fresh {α : Type} (d : List (String × α)) (k : String) (v : α)
    (h : ∀ kv ∈ d, kv.1 ≠ k) : dictInsert d k v = d ++ [(k, v)] := by
  unfold dictInsert
  have hany : d.any (fun kv => kv.1 == k) = false := by
    rw [List.any_eq_false]
    intro kv hkv
    simpa using h kv hkv
  rw [hany]
  simp

theorem foldl_least_mem (counts : String → Nat) (x : String) (xs : List String) :
    xs.foldl (fun best c => if counts c < counts best then c else best) x ∈ x :: xs := by
  induction xs generalizing x with
  | nil => simp
  | cons a l ih =>
      rw [List.foldl_cons]
      rcases List.mem_cons.mp (ih (if counts a < counts x then a else x)) with h | h
      · rw [h]
        split_ifs
        · exact List.mem_cons_of_mem _ (List.mem_cons_self a l)
        · exact List.mem_cons_self x (a :: l)
      · exact List.mem_cons_of_mem _ (List.mem_cons_of_mem _ h)

theorem leastUsed_mem (cands : List String) (counts : String → Nat) (y : String)
    (h : leastUsed cands counts = some y) : y ∈ cands := by
  cases cands with
  | nil => exact absurd h (by simp [leastUsed])
  | cons x xs =>
      unfold leastUsed at h
      obtain rfl := Option.some_inj.mp h
      exact foldl_least_mem counts x xs

theorem compute_arc_progression_spec (e N : Int)
    (ds : Option (List (String × PyValue))) (pe b : ℚ)
    (hb : pyFloat (lookupSetting (ds.getD []) "silhouette_visibility" (PyValue.num 0.2)) =
      some b) :
    compute_arc_progression e N ds pe = some
      { stage := stageAt (ratioAt e N)
        position_ratio := ratioAt e N
        scene_intensity :=
          _clamp (0.25 + (_stage_modifier (stageAt (ratioAt e N)) * 0.45) + (ratioAt e N * 0.30))
        narration_tension :=
          _clamp (0.20 + (_stage_modifier (stageAt (ratioAt e N)) * 0.40) +
            (_clamp ((pe * 0.4) + (ratioAt e N * 0.35) +
              (_stage_modifier (stageAt (ratioAt e N)) * 0.25)) * 0.25))
        disturbance_frequency :=
          _clamp (0.15 + (ratioAt e N * 0.35) + (_stage_modifier (stageAt (ratioAt e N)) * 0.30))
        cliffhanger_strength :=
          _clamp (0.10 + (ratioAt e N * 0.45) + (_stage_modifier (stageAt (ratioAt e N)) * 0.35))
        silhouette_presence :=
          _clamp (b + (ratioAt e N * 0.40) + (_stage_modifier (stageAt (ratioAt e N)) * 0.30))
        escalation_level :=
          _clamp ((pe * 0.4) + (ratioAt e N * 0.35) +
            (_stage_modifier (stageAt (ratioAt e N)) * 0.25)) } := by
  unfold compute_arc_progression
  rw [detect_eq]
  dsimp only
  rw [hb]

theorem compute_arc_progression_raises (e N : Int)
    (ds : Option (List (String × PyValue))) (pe : ℚ)
    (hb : pyFloat (lookupSetting (ds.getD []) "silhouette_visibility" (PyValue.num 0.2)) =
      none) :
    compute_arc_progression e N ds pe = none := by
  unfold compute_arc_progression
  dsimp only
  rw [hb]

theorem pyFloat_lookup_of_numeric (l : List (String × PyValue))
    (hnum : l.all (fun kv => kv.2.isNum) = true) :
    ∃ b, pyFloat (lookupSetting l "silhouette_visibility" (PyValue.num 0.2)) = some b := by
  unfold lookupSetting
  cases hfind : l.find? (fun kv => kv.1 == "silhouette_visibility") with
  | none => exact ⟨0.2, rfl⟩
  | some kv =>
      have hmem : kv ∈ l := List.mem_of_find?_eq_some hfind
      have := List.all_eq_true.mp hnum kv hmem
      cases hv : kv.2 with
      | num q =>
          refine ⟨q, ?_⟩
          show pyFloat kv.2 = some q
          rw [hv]
          rfl
      | str s => rw [hv] at this; exact absurd this (by simp [PyValue.isNum])

/-! Claim theorems. -/

/-- Claim C1: for every `total_episodes = N ≥ 2`, iterating `episode_number`
from 1 to N through the progression engine yields stages in non-decreasing
order under the fixed total order intro < buildup < escalation < instability
< finale (so the visited stages appear in order, never reordered or revisited
out of order), `episode_number = N` always yields finale, and for the
reference arc length 10 the visited stage sequence passes through every stage
in exactly the listed order. -/
theorem arc_stage_progression (N e e' : Int) (hN : 2 ≤ N) (h1 : 1 ≤ e)
    (hee : e ≤ e') (heN : e' ≤ N) :
    stageIndex (_detect_progress_stage e N).1 ≤ stageIndex (_detect_progress_stage e' N).1 ∧
    (_detect_progress_stage N N).1 = "finale" ∧
    ((List.range 10).map (fun k => (_detect_progress_stage ((k : Int) + 1) 10).1)).dedup =
      STAGE_ORDER := by
  refine ⟨?_, ?_, by with_unfolding_all decide⟩
  · rw [detect_eq, detect_eq]
    exact stageAt_mono _ _ (ratioAt_mono N e e' hee)
  · rw [detect_eq]
    show stageAt (ratioAt N N) = "finale"
    rw [ratioAt_at_end N N (by omega) le_rfl, stageAt_one]

/-- Witness for C1 at `N = 10`, `e = 3`, `e' = 7`. -/
theorem arc_stage_progression_witness :
    ((2 : Int) ≤ 10 ∧ (1 : Int) ≤ 3 ∧ (3 : Int) ≤ 7 ∧ (7 : Int) ≤ 10) ∧
    (stageIndex (_detect_progress_stage 3 10).1 ≤ stageIndex (_detect_progress_stage 7 10).1 ∧
      (_detect_progress_stage 10 10).1 = "finale" ∧
      ((List.range 10).map (fun k => (_detect_progress_stage ((k : Int) + 1) 10).1)).dedup =
        STAGE_ORDER) :=
  ⟨by with_unfolding_all decide, arc_stage_progression 10 3 7 (by with_unfolding_all decide) (by with_unfolding_all decide) (by with_unfolding_all decide) (by with_unfolding_all decide)⟩

/-- Claim C2, counterexample: with `silhouette_visibility` given as the named
level "high" instead of a number, `compute_arc_progression` raises
`ValueError` (the embedded call returns `none`), so the call does not return
an `ArcProgression` record for every director-settings mapping. -/
theorem compute_named_level_raises :
    compute_arc_progression 1 10 (some [("silhouette_visibility", PyValue.str "high")]) 0 =
      none := by with_unfolding_all decide

/-- Claim C2 as amended: for every `episode_number` and `total_episodes`
(including values ≤ 0, which are coerced), every `prior_escalation`, and every
director-settings mapping that is absent or partial, holds arbitrary values
(strings included) under every other key, and whose silhouette-visibility
value, when present, is one the float conversion accepts (a number or a
numeric string), `compute_arc_progression` returns an `ArcProgression` record
without raising. Only a non-numeric named level under `silhouette_visibility`
raises. -/
theorem compute_total_on_numeric_settings (e N : Int)
    (ds : Option (List (String × PyValue))) (pe : ℚ)
    (hconv : (ds.getD []).all
      (fun kv => (kv.1 != "silhouette_visibility") || (pyFloat kv.2).isSome) = true) :
    (compute_arc_progression e N ds pe).isSome = true := by
  obtain ⟨b, hb⟩ := pyFloat_lookup_of_convertible (ds.getD []) hconv
  rw [compute_arc_progression_spec e N ds pe b hb]
  rfl

/-- Witness for C2 (amended) at out-of-range episode inputs with a partial
mapping carrying a string value under another key and a numeric-string
silhouette visibility. -/
theorem compute_total_on_numeric_settings_witness :
    ((some [("pacing_style", PyValue.str "fast"),
        ("silhouette_visibility", PyValue.str "0.5")] :
        Option (List (String × PyValue))).getD []).all
      (fun kv => (kv.1 != "silhouette_visibility") || (pyFloat kv.2).isSome) = true ∧
    (compute_arc_progression (-5) 0
      (some [("pacing_style", PyValue.str "fast"),
        ("silhouette_visibility", PyValue.str "0.5")]) 7).isSome = true :=
  ⟨by with_unfolding_all decide,
    compute_total_on_numeric_settings (-5) 0 _ 7 (by with_unfolding_all decide)⟩

/-- Claim C3: whenever `compute_arc_progression` returns a record, the five
intensity signals as well as `position_ratio` and `escalation_level` all lie
within `[0, 1]`, for every input including extreme `prior_escalation` and
negative numeric `silhouette_visibility`. -/
theorem signals_within_unit_interval (e N : Int) (ds : Option (List (String × PyValue)))
    (pe : ℚ) (r : ArcProgression) (h : compute_arc_progression e N ds pe = some r) :
    (0 ≤ r.scene_intensity ∧ r.scene_intensity ≤ 1) ∧
    (0 ≤ r.narration_tension ∧ r.narration_tension ≤ 1) ∧
    (0 ≤ r.disturbance_frequency ∧ r.disturbance_frequency ≤ 1) ∧
    (0 ≤ r.cliffhanger_strength ∧ r.cliffhanger_strength ≤ 1) ∧
    (0 ≤ r.silhouette_presence ∧ r.silhouette_presence ≤ 1) ∧
    (0 ≤ r.position_ratio ∧ r.position_ratio ≤ 1) ∧
    (0 ≤ r.escalation_level ∧ r.escalation_level ≤ 1) := by
  cases hb : pyFloat (lookupSetting (ds.getD []) "silhouette_visibility" (PyValue.num 0.2)) with
  | none =>
      rw [compute_arc_progression_raises e N ds pe hb] at h
      exact absurd h (by simp)
  | some b =>
      rw [compute_arc_progression_spec e N ds pe b hb] at h
      obtain rfl := Option.some_inj.mp h
      exact ⟨⟨_clamp_nonneg _, _clamp_le_one _⟩, ⟨_clamp_nonneg _, _clamp_le_one _⟩,
        ⟨_clamp_nonneg _, _clamp_le_one _⟩, ⟨_clamp_nonneg _, _clamp_le_one _⟩,
        ⟨_clamp_nonneg _, _clamp_le_one _⟩, ⟨ratioAt_nonneg e N, ratioAt_le_one e N⟩,
        ⟨_clamp_nonneg _, _clamp_le_one _⟩⟩

/-- Witness for C3 at `prior_escalation = 5`. -/
theorem signals_within_unit_interval_witness :
    compute_arc_progression 1 10 none 5 =
      some ⟨"intro", 0, 0.295, 0.49, 0.18, 0.135, 0.23, 1⟩ ∧
    ((0 ≤ (0.295 : ℚ) ∧ (0.295 : ℚ) ≤ 1) ∧
      (0 ≤ (0.49 : ℚ) ∧ (0.49 : ℚ) ≤ 1) ∧
      (0 ≤ (0.18 : ℚ) ∧ (0.18 : ℚ) ≤ 1) ∧
      (0 ≤ (0.135 : ℚ) ∧ (0.135 : ℚ) ≤ 1) ∧
      (0 ≤ (0.23 : ℚ) ∧ (0.23 : ℚ) ≤ 1) ∧
      (0 ≤ (0 : ℚ) ∧ (0 : ℚ) ≤ 1) ∧
      (0 ≤ (1 : ℚ) ∧ (1 : ℚ) ≤ 1)) :=
  ⟨by with_unfolding_all decide,
    signals_within_unit_interval 1 10 none 5 ⟨"intro", 0, 0.295, 0.49, 0.18, 0.135, 0.23, 1⟩
      (by with_unfolding_all decide)⟩

/-- Claim C7, counterexample: with numeric `silhouette_visibility = 2` and
`total_episodes = 2`, the silhouette presence clamps to 1 at both the first
and the last episode, so it is not strictly greater at the last episode. -/
theorem silhouette_growth_counterexample :
    (compute_arc_progression 1 2 (some [("silhouette_visibility", PyValue.num 2)]) 0).map
        ArcProgression.silhouette_presence = some 1 ∧
    (compute_arc_progression 2 2 (some [("silhouette_visibility", PyValue.num 2)]) 0).map
        ArcProgression.silhouette_presence = some 1 := by with_unfolding_all decide

/-- Claim C7 as amended: for every `total_episodes = N ≥ 2` and fixed director
settings whose silhouette base value `b` (numeric override, defaulting to 0.2)
satisfies `-0.685 < b < 0.97`, the silhouette presence at
`episode_number = N` is strictly greater than at `episode_number = 1`; outside
that range both episodes clamp to the same endpoint of `[0, 1]`. -/
theorem silhouette_strict_growth (N : Int) (ds : Option (List (String × PyValue)))
    (pe b : ℚ) (hN : 2 ≤ N)
    (hb : pyFloat (lookupSetting (ds.getD []) "silhouette_visibility" (PyValue.num 0.2)) =
      some b)
    (hlo : -(0.685 : ℚ) < b) (hhi : b < 0.97)
    (r1 rN : ArcProgression)
    (h1 : compute_arc_progression 1 N ds pe = some r1)
    (hN2 : compute_arc_progression N N ds pe = some rN) :
    r1.silhouette_presence < rN.silhouette_presence := by
  rw [compute_arc_progression_spec 1 N ds pe b hb] at h1
  rw [compute_arc_progression_spec N N ds pe b hb] at hN2
  obtain rfl := Option.some_inj.mp h1
  obtain rfl := Option.some_inj.mp hN2
  show _clamp (b + (ratioAt 1 N * 0.40) + (_stage_modifier (stageAt (ratioAt 1 N)) * 0.30)) <
    _clamp (b + (ratioAt N N * 0.40) + (_stage_modifier (stageAt (ratioAt N N)) * 0.30))
  rw [ratioAt_at_start N hN, stageAt_zero, ratioAt_at_end N N (by omega) le_rfl, stageAt_one,
    _stage_modifier_intro, _stage_modifier_finale]
  unfold _clamp
  rw [max_def, max_def, min_def, min_def]
  split_ifs <;> linarith

/-- Witness for C7 (amended) at `N = 10`, default settings. -/
theorem silhouette_strict_growth_witness :
    ((2 : Int) ≤ 10 ∧ -(0.685 : ℚ) < 0.2 ∧ (0.2 : ℚ) < 0.97) ∧
    ArcProgression.silhouette_presence ⟨"intro", 0, 0.295, 0.24625, 0.18, 0.135, 0.23, 0.025⟩ <
      ArcProgression.silhouette_presence
        ⟨"finale", 1, 0.9775, 0.726875, 0.785, 0.8825, 0.885, 0.5875⟩ :=
  ⟨by norm_num,
    silhouette_strict_growth 10 none 0 0.2 (by with_unfolding_all decide) (by with_unfolding_all decide) (by norm_num) (by norm_num)
      ⟨"intro", 0, 0.295, 0.24625, 0.18, 0.135, 0.23, 0.025⟩
      ⟨"finale", 1, 0.9775, 0.726875, 0.785, 0.8825, 0.885, 0.5875⟩
      (by with_unfolding_all decide) (by with_unfolding_all decide)⟩

/-- Claim C8: with director settings `{silhouette_visibility: 0.2}` and
`total_episodes = 10`, episode 1 yields silhouette presence exactly
`0.2 + 0.40*0 + 0.30*0.10 = 0.23` and episode 10 yields exactly
`0.2 + 0.40*1 + 0.30*0.95 = 0.885` (below the clamp ceiling of 1), matching
the stated formula `clamp(base + 0.40*ratio + 0.30*stage_mod)`. -/
theorem silhouette_concrete_values :
    (compute_arc_progression 1 10 (some [("silhouette_visibility", PyValue.num 0.2)]) 0).map
        ArcProgression.silhouette_presence = some 0.23 ∧
    (compute_arc_progression 10 10 (some [("silhouette_visibility", PyValue.num 0.2)]) 0).map
        ArcProgression.silhouette_presence = some 0.885 ∧
    (0.23 : ℚ) = 0.2 + 0.40 * 0 + 0.30 * 0.10 ∧
    (0.885 : ℚ) = 0.2 + 0.40 * 1 + 0.30 * 0.95 ∧ (0.885 : ℚ) ≤ 1 := by
  refine ⟨by with_unfolding_all decide, by with_unfolding_all decide, by norm_num, by norm_num, by norm_num⟩

/-- Claim C4: whenever `generate_episode` returns, the updated arc record is
exactly the input arc with `completed_episodes` advanced by one saturating at
`total_episodes`, and with `current_progress_stage` and `escalation_level`
overwritten by the freshly computed progression values; `arc_id`,
`total_episodes` and every other field are unchanged. -/
theorem generate_episode_frame (arc : ArcMemory) (ds : Option (List (String × PyValue)))
    (arc2 : ArcMemory) (out : EpisodeOutput)
    (h : generate_episode arc ds = some (arc2, out)) :
    ∃ p, compute_arc_progression (arc.completed_episodes + 1) arc.total_episodes ds
        arc.escalation_level = some p ∧
      arc2 = { arc with
        completed_episodes := min (arc.completed_episodes + 1) arc.total_episodes
        current_progress_stage := p.stage
        escalation_level := p.escalation_level } := by
  unfold generate_episode at h
  dsimp only at h
  cases hp : compute_arc_progression (arc.completed_episodes + 1) arc.total_episodes ds
      arc.escalation_level with
  | none => rw [hp] at h; exact absurd h (by simp)
  | some p =>
      rw [hp] at h
      dsimp only at h
      simp only [Option.some_inj, Prod.mk.injEq] at h
      exact ⟨p, rfl, h.1.symm⟩

/-- Witness for C4 on a fresh three-episode arc. -/
theorem generate_episode_frame_witness :
    ∃ p, compute_arc_progression
        ((⟨"a", 3, 0, "intro", 0⟩ : ArcMemory).completed_episodes + 1)
        (⟨"a", 3, 0, "intro", 0⟩ : ArcMemory).total_episodes none
        (⟨"a", 3, 0, "intro", 0⟩ : ArcMemory).escalation_level = some p ∧
      (⟨"a", 3, 1, "intro", 0.025⟩ : ArcMemory) =
        { (⟨"a", 3, 0, "intro", 0⟩ : ArcMemory) with
          completed_episodes :=
            min ((⟨"a", 3, 0, "intro", 0⟩ : ArcMemory).completed_episodes + 1)
              (⟨"a", 3, 0, "intro", 0⟩ : ArcMemory).total_episodes
          current_progress_stage := p.stage
          escalation_level := p.escalation_level } :=
  generate_episode_frame ⟨"a", 3, 0, "intro", 0⟩ none ⟨"a", 3, 1, "intro", 0.025⟩
    ⟨"a", 1, "intro", ⟨0.295, 0.18, 0.23⟩, ⟨0.24625⟩, ⟨0.135⟩⟩
    (by with_unfolding_all decide)

/-- Claim C9: saving a collection of arc records keyed by their `arc_id` and
loading it back recovers the same keyed collection, in which `arc_id`,
`total_episodes`, `completed_episodes` and `current_progress_stage` are
recovered exactly and each `escalation_level` is replaced by its value
rounded to four decimal places. -/
theorem load_save_roundtrip (arcs : List ArcMemory)
    (hkeys : (arcs.map ArcMemory.arc_id).Nodup) :
    load_arcs (save_arcs arcs) =
      arcs.map (fun a => (a.arc_id, { a with escalation_level := round4 a.escalation_level })) := by
  unfold load_arcs
  have general :
      ∀ (l : List ArcMemory) (acc : List (String × ArcMemory)),
        (∀ kv ∈ acc, kv.1 ∉ l.map ArcMemory.arc_id) →
        (l.map ArcMemory.arc_id).Nodup →
        (save_arcs l).foldl
          (fun arcs item =>
            dictInsert arcs item.arc_id
              { arc_id := item.arc_id
                total_episodes := item.total_episodes
                completed_episodes := item.completed_episodes
                current_progress_stage := item.current_progress_stage
                escalation_level := item.escalation_level }) acc =
        acc ++ l.map (fun a => (a.arc_id, { a with escalation_level := round4 a.escalation_level })) := by
    intro l
    induction l with
    | nil => intro acc _ _; simp [save_arcs]
    | cons a l ih =>
        intro acc hacc hnd
        have hsave : save_arcs (a :: l) =
            ({ arc_id := a.arc_id
               total_episodes := a.total_episodes
               completed_episodes := a.completed_episodes
               current_progress_stage := a.current_progress_stage
               escalation_level := round4 a.escalation_level } : SavedArc) :: save_arcs l := by
          simp [save_arcs]
        rw [hsave, List.foldl_cons]
        dsimp only
        have hfresh : ∀ kv ∈ acc, kv.1 ≠ a.arc_id := by
          intro kv hkv
          have := hacc kv hkv
          simp only [List.map_cons, List.mem_cons] at this
          exact fun hkva => this (Or.inl hkva)
        rw [dictInsert_fresh acc a.arc_id _ hfresh]
        have hnotin : a.arc_id ∉ l.map ArcMemory.arc_id := by
          have := hnd
          simp only [List.map_cons, List.nodup_cons] at this
          exact this.1
        have hacc2 : ∀ kv ∈ acc ++
            [(a.arc_id, { a with escalation_level := round4 a.escalation_level })],
            kv.1 ∉ l.map ArcMemory.arc_id := by
          intro kv hkv
          rcases List.mem_append.mp hkv with hkv | hkv
          · have := hacc kv hkv
            simp only [List.map_cons, List.mem_cons] at this
            exact fun hmem => this (Or.inr hmem)
          · simp only [List.mem_singleton] at hkv
            rw [hkv]
            exact hnotin
        have hnd2 : (l.map ArcMemory.arc_id).Nodup := by
          have := hnd
          simp only [List.map_cons, List.nodup_cons] at this
          exact this.2
        have hrec := ih _ hacc2 hnd2
        rw [hrec]
        simp
  simpa using general arcs [] (by simp) hkeys

/-- Witness for C9 on a two-arc collection with distinct ids. -/
theorem load_save_roundtrip_witness :
    (([⟨"x", 5, 2, "buildup", 0.123456789⟩, ⟨"y", 3, 3, "finale", 1⟩] :
        List ArcMemory).map ArcMemory.arc_id).Nodup ∧
    load_arcs (save_arcs [⟨"x", 5, 2, "buildup", 0.123456789⟩, ⟨"y", 3, 3, "finale", 1⟩]) =
      ([⟨"x", 5, 2, "buildup", 0.123456789⟩, ⟨"y", 3, 3, "finale", 1⟩] :
        List ArcMemory).map
        (fun a => (a.arc_id, { a with escalation_level := round4 a.escalation_level })) :=
  ⟨by with_unfolding_all decide,
    load_save_roundtrip [⟨"x", 5, 2, "buildup", 0.123456789⟩, ⟨"y", 3, 3, "finale", 1⟩]
      (by with_unfolding_all decide)⟩

/-- Claim C10: calling `generate_episode` on an arc whose
`completed_episodes` already equals `total_episodes ≥ 1` (with numeric or
absent director settings) does not fail and does not regress state: the
returned blueprint has `episode_number = total_episodes + 1` and stage
finale, while the arc's `completed_episodes` stays at `total_episodes`. -/
theorem generate_episode_on_completed (arc : ArcMemory)
    (ds : Option (List (String × PyValue)))
    (hc : arc.completed_episodes = arc.total_episodes) (h1 : 1 ≤ arc.total_episodes)
    (hnum : (ds.getD []).all (fun kv => kv.2.isNum) = true) :
    ∃ arc2 out, generate_episode arc ds = some (arc2, out) ∧
      out.episode_number = arc.total_episodes + 1 ∧
      out.progression_stage = "finale" ∧
      arc2.completed_episodes = arc.total_episodes := by
  obtain ⟨b, hb⟩ := pyFloat_lookup_of_numeric (ds.getD []) hnum
  have hspec := compute_arc_progression_spec (arc.completed_episodes + 1)
    arc.total_episodes ds arc.escalation_level b hb
  unfold generate_episode
  dsimp only
  rw [hspec]
  refine ⟨_, _, rfl, ?_, ?_, ?_⟩
  · show arc.completed_episodes + 1 = arc.total_episodes + 1
    omega
  · show stageAt (ratioAt (arc.completed_episodes + 1) arc.total_episodes) = "finale"
    rw [ratioAt_at_end _ _ h1 (by omega), stageAt_one]
  · show min (arc.completed_episodes + 1) arc.total_episodes = arc.total_episodes
    rw [hc]
    exact min_eq_right (by omega)

/-- Witness for C10 on a completed single-episode arc. -/
theorem generate_episode_on_completed_witness :
    ((⟨"a", 1, 1, "finale", 0⟩ : ArcMemory).completed_episodes =
        (⟨"a", 1, 1, "finale", 0⟩ : ArcMemory).total_episodes ∧
      (1 : Int) ≤ (⟨"a", 1, 1, "finale", 0⟩ : ArcMemory).total_episodes) ∧
    ∃ arc2 out, generate_episode ⟨"a", 1, 1, "finale", 0⟩ none = some (arc2, out) ∧
      out.episode_number = (⟨"a", 1, 1, "finale", 0⟩ : ArcMemory).total_episodes + 1 ∧
      out.progression_stage = "finale" ∧
      arc2.completed_episodes = (⟨"a", 1, 1, "finale", 0⟩ : ArcMemory).total_episodes :=
  ⟨⟨rfl, by decide⟩,
    generate_episode_on_completed ⟨"a", 1, 1, "finale", 0⟩ none rfl (by decide) rfl⟩

/-- Claim C5: with `recent_window = 3`, a creature whose recorded
main-assignment history is exactly episode 1 is never selected as main at
episodes 2 or 3 except through the exhaustion fallback (when the eligibility
filter empties), and it is eligible again at episode 4. -/
theorem main_selection_cooldown (pool : List String) (t : CreatureTracker) (m : String)
    (hm : getHistory t.main_episode_assignments m = [1]) :
    (∀ ep : Int, (ep = 2 ∨ ep = 3) →
      eligibleCreatures pool ep 3 t ≠ [] →
      ∀ mc bg t2, select_episode_creatures pool ep 3 t = (some mc, bg, t2) → mc ≠ m) ∧
    (m ∈ pool → m ∈ eligibleCreatures pool 4 3 t) := by
  have hmel : ∀ ep : Int, (ep = 2 ∨ ep = 3) → isEligible t m ep 3 = false := by
    intro ep hep
    unfold isEligible
    rw [hm]
    rcases hep with rfl | rfl <;> with_unfolding_all rfl
  constructor
  · intro ep hep hne mc bg t2 hsel
    cases hpool : pool with
    | nil =>
        subst hpool
        exact absurd rfl hne
    | cons a rest =>
        subst hpool
        unfold select_episode_creatures at hsel
        dsimp only at hsel
        cases hE : (eligibleCreatures (a :: rest) ep 3 t).isEmpty with
        | true => exact absurd (List.isEmpty_iff.mp hE) hne
        | false =>
            rw [hE] at hsel
            rw [if_neg Bool.false_ne_true] at hsel
            cases hlu : leastUsed (eligibleCreatures (a :: rest) ep 3 t)
                (fun c => (getHistory t.main_episode_assignments c).length) with
            | none => rw [hlu] at hsel; simp at hsel
            | some y =>
                rw [hlu] at hsel
                dsimp only at hsel
                simp only [Prod.mk.injEq, Option.some_inj] at hsel
                obtain ⟨rfl, -, -⟩ := hsel
                have hymem := leastUsed_mem _ _ _ hlu
                have hyel := (List.mem_filter.mp hymem).2
                rintro rfl
                rw [hmel ep hep] at hyel
                exact Bool.false_ne_true hyel
  · intro hmp
    exact List.mem_filter.mpr ⟨hmp, by unfold isEligible; rw [hm]; with_unfolding_all rfl⟩

/-- Witness for C5 with a two-creature pool. -/
theorem main_selection_cooldown_witness :
    getHistory (⟨[], [("m", [1])], []⟩ : CreatureTracker).main_episode_assignments "m" =
      [1] ∧
    "m" ∈ eligibleCreatures ["a", "m"] 4 3 ⟨[], [("m", [1])], []⟩ :=
  ⟨by with_unfolding_all rfl,
    (main_selection_cooldown ["a", "m"] ⟨[], [("m", [1])], []⟩ "m"
      (by with_unfolding_all rfl)).2 (by with_unfolding_all decide)⟩

/-- Claim C6: selecting from an empty creature pool returns an absent main
creature and an empty background list and leaves the tracker state
untouched. -/
theorem select_empty_pool (episode_number recent_window : Int) (t : CreatureTracker) :
    select_episode_creatures [] episode_number recent_window t = (none, [], t) := rfl

end Fireverse
